import Mathlib

/-!
Verification of the build-configuration header `src/build/config.h` of the
awesome window manager build tree.  The header defines five path-string
macros and three boolean feature flags (a flag is `true` when its macro is
defined in the header, `false` when it is absent, as `WITH_XCB_ERRORS` is).
-/

namespace BuildConfig

/-- The macro `AWESOME_LUA_LIB_PATH` from `config.h`, line 4. -/
def AWESOME_LUA_LIB_PATH : String := "/usr/share/awesome/lib"

/-- The macro `XDG_CONFIG_DIR` from `config.h`, line 5. -/
def XDG_CONFIG_DIR : String := "/etc/xdg"

/-- The macro `AWESOME_THEMES_PATH` from `config.h`, line 6. -/
def AWESOME_THEMES_PATH : String := "/usr/share/awesome/themes"

/-- The macro `AWESOME_ICON_PATH` from `config.h`, line 7. -/
def AWESOME_ICON_PATH : String := "/usr/share/awesome/icons"

/-- The macro `AWESOME_DEFAULT_CONF` from `config.h`, line 8. -/
def AWESOME_DEFAULT_CONF : String := "/etc/xdg/awesome/rc.lua"

/-- Feature flag: `WITH_DBUS` is defined in `config.h`, line 10. -/
def WITH_DBUS : Bool := true

/-- Feature flag: `WITH_XCB_ERRORS` is absent from `config.h` (only a
commented-out `undef` on line 11), so the flag is off. -/
def WITH_XCB_ERRORS : Bool := false

/-- Feature flag: `HAS_EXECINFO` is defined in `config.h`, line 12. -/
def HAS_EXECINFO : Bool := true

/-- The keys of the configuration record: one per macro of `config.h`. -/
inductive ConfigKey where
  | luaLibPath
  | xdgConfigDir
  | themesPath
  | iconPath
  | defaultConf
  | withDbus
  | withXcbErrors
  | hasExecinfo
deriving DecidableEq, Repr

/-- A configuration value is a path string or a boolean feature flag. -/
inductive ConfigValue where
  | str (s : String)
  | flag (b : Bool)
deriving DecidableEq, Repr

/-- The configuration record of `config.h`: the total map from each key to
the constant the header defines for it. -/
def configValue : ConfigKey → ConfigValue
  | .luaLibPath => .str AWESOME_LUA_LIB_PATH
  | .xdgConfigDir => .str XDG_CONFIG_DIR
  | .themesPath => .str AWESOME_THEMES_PATH
  | .iconPath => .str AWESOME_ICON_PATH
  | .defaultConf => .str AWESOME_DEFAULT_CONF
  | .withDbus => .flag WITH_DBUS
  | .withXcbErrors => .flag WITH_XCB_ERRORS
  | .hasExecinfo => .flag HAS_EXECINFO

/-- The keys whose values are path strings. -/
def pathKeys : List ConfigKey :=
  [.luaLibPath, .xdgConfigDir, .themesPath, .iconPath, .defaultConf]

/-- The keys whose values are boolean feature flags. -/
def flagKeys : List ConfigKey :=
  [.withDbus, .withXcbErrors, .hasExecinfo]

/-- A process run modelled as the sequence of configuration reads it
performs: each read of a key returns `configValue` of that key, since the
constants are compile-time substitutions with no mutable state. -/
def readTrace (ks : List ConfigKey) : List ConfigValue :=
  ks.map configValue

end BuildConfig

namespace BuildConfig

/-- Claim C1: a consumer reading the default config file constant receives
exactly the string `/etc/xdg/awesome/rc.lua`. -/
theorem default_conf_is_rc_lua :
    AWESOME_DEFAULT_CONF = "/etc/xdg/awesome/rc.lua" := rfl

/-- Claim C2: every one of the three boolean feature flags carries a
definite value `true` or `false`; no flag is unset: looking up each flag
key yields a `flag` value that is `true` or `false`. -/
theorem flags_are_definite :
    ∀ k ∈ flagKeys,
      configValue k = .flag true ∨ configValue k = .flag false := by
  decide

/-- Witness for C2 at the concrete key `withXcbErrors`. -/
theorem flags_are_definite_witness :
    configValue .withXcbErrors = .flag true ∨
      configValue .withXcbErrors = .flag false :=
  flags_are_definite .withXcbErrors (by decide)

/-- Claim C3: the four remaining path constants equal their specified
strings: library path, system config directory, themes path, icon path. -/
theorem remaining_paths_values :
    AWESOME_LUA_LIB_PATH = "/usr/share/awesome/lib" ∧
    XDG_CONFIG_DIR = "/etc/xdg" ∧
    AWESOME_THEMES_PATH = "/usr/share/awesome/themes" ∧
    AWESOME_ICON_PATH = "/usr/share/awesome/icons" :=
  ⟨rfl, rfl, rfl, rfl⟩

/-- Claim C4: the boolean feature flags have exactly the specified values:
messaging-bus integration (`WITH_DBUS`) is on, display-error-names
integration (`WITH_XCB_ERRORS`) is off, stack-trace capture
(`HAS_EXECINFO`) is on. -/
theorem flag_values :
    WITH_DBUS = true ∧ WITH_XCB_ERRORS = false ∧ HAS_EXECINFO = true :=
  ⟨rfl, rfl, rfl⟩

/-- Claim C5: for every defined key, looking up the constant succeeds and
returns a value: `configValue` is total on `ConfigKey` and every key has a
definite value; there is no error path and no absent value. -/
theorem lookup_never_absent :
    ∀ k : ConfigKey, ∃ v : ConfigValue, configValue k = v :=
  fun k => ⟨configValue k, rfl⟩

/-- Claim C6: the string returned for every path key is non-empty. -/
theorem path_values_nonempty :
    ∀ k ∈ pathKeys, ∀ s : String, configValue k = .str s → s ≠ "" := by
  intro k hk s hs
  cases k <;> simp only [configValue] at hs <;>
    first
      | exact ConfigValue.noConfusion hs
      | (injection hs with h; subst h; decide)

/-- Witness for C6 at the concrete key `luaLibPath`. -/
theorem path_values_nonempty_witness :
    AWESOME_LUA_LIB_PATH ≠ "" :=
  path_values_nonempty .luaLibPath (by decide) AWESOME_LUA_LIB_PATH rfl

/-- Claim C7: any two reads of the same key within a single process run
(a trace of reads) return identical values; the record is never mutated. -/
theorem repeated_reads_identical (ks : List ConfigKey) (i j : Nat)
    (hi : i < ks.length) (hj : j < ks.length)
    (hk : ks.get ⟨i, hi⟩ = ks.get ⟨j, hj⟩) :
    (readTrace ks).get ⟨i, by simpa [readTrace] using hi⟩ =
      (readTrace ks).get ⟨j, by simpa [readTrace] using hj⟩ := by
  simp only [readTrace, List.get_eq_getElem, List.getElem_map]
  simp only [List.get_eq_getElem] at hk
  rw [hk]

/-- Witness for C7: in a concrete run reading `withDbus`, then
`luaLibPath`, then `withDbus` again, the first and third reads agree. -/
theorem repeated_reads_identical_witness :
    (readTrace [ConfigKey.withDbus, ConfigKey.luaLibPath,
        ConfigKey.withDbus]).get ⟨0, by decide⟩ =
      (readTrace [ConfigKey.withDbus, ConfigKey.luaLibPath,
        ConfigKey.withDbus]).get ⟨2, by decide⟩ :=
  repeated_reads_identical
    [ConfigKey.withDbus, ConfigKey.luaLibPath, ConfigKey.withDbus]
    0 2 (by decide) (by decide) (by decide)

/-- Claim C8: the default config file path is the system config directory
extended by `/awesome/rc.lua`. -/
theorem default_conf_extends_xdg :
    AWESOME_DEFAULT_CONF = XDG_CONFIG_DIR ++ "/awesome/rc.lua" := by
  decide

/-- Claim C9: the library, themes and icon paths share the common prefix
`/usr/share/awesome/` and differ only in their final segment. -/
theorem share_paths_common_prefix :
    AWESOME_LUA_LIB_PATH = "/usr/share/awesome/" ++ "lib" ∧
    AWESOME_THEMES_PATH = "/usr/share/awesome/" ++ "themes" ∧
    AWESOME_ICON_PATH = "/usr/share/awesome/" ++ "icons" := by
  refine ⟨?_, ?_, ?_⟩ <;> decide

/-- Claim C10: every path-string constant is absolute: it begins with the
character `/` and does not end with `/`. -/
theorem paths_absolute :
    ∀ k ∈ pathKeys, ∀ s : String, configValue k = .str s →
      s.data.head? = some '/' ∧ s.data.getLast? ≠ some '/' := by
  intro k hk s hs
  cases k <;> simp only [configValue] at hs <;>
    first
      | exact ConfigValue.noConfusion hs
      | (injection hs with h; subst h; decide)

/-- Witness for C10 at the concrete key `defaultConf`. -/
theorem paths_absolute_witness :
    AWESOME_DEFAULT_CONF.data.head? = some '/' ∧
      AWESOME_DEFAULT_CONF.data.getLast? ≠ some '/' :=
  paths_absolute .defaultConf (by decide) AWESOME_DEFAULT_CONF rfl

end BuildConfig
